import Mathlib

/-!
Shallow embedding of the net-worth / goal-progress engine of the vipu
backend (src/backend/app): models.py, forecasting.py, routes/goals.py.
Monetary values (Python Decimal / float) are modelled as exact rationals.
-/

namespace Vipu

/-! ## Data model (src/backend/app/models.py) -/

/-- NetWorthGroup: user-defined group; group_type is "asset" or "liability". -/
structure NetWorthGroup where
  id : Nat
  name : String
  group_type : String
  deriving Repr, DecidableEq

/-- NetWorthCategory with its (non-nullable) group relationship. -/
structure NetWorthCategory where
  id : Nat
  name : String
  is_personal : Bool
  group : NetWorthGroup
  deriving Repr, DecidableEq

/-- NetWorthEntry: one category's amount inside a snapshot.  The amount
column is modelled as an Option because the Python code guards
`entry.amount is not None` at each use site. -/
structure NetWorthEntry where
  category_id : Nat
  category : NetWorthCategory
  amount : Option ℚ
  deriving Repr, DecidableEq

/-- NetWorthSnapshot restricted to the fields the verified code reads:
month, year, the stored net_worth and total_assets, and the entries. -/
structure Snapshot where
  month : Nat
  year : Int
  net_worth : ℚ
  total_assets : ℚ
  entries : List NetWorthEntry
  deriving Repr, DecidableEq

/-- Default snapshot used only as the out-of-range fallback of List.getD
in specification-side index formulas (indices are always in range). -/
def dummySnapshot : Snapshot := ⟨1, 0, 0, 0, []⟩

/-- IncomeItem (models.py): gross amount, taxed flag, optional per-item
tax/deduction percentage, deduction flag. -/
structure IncomeItem where
  gross_amount : ℚ
  is_taxed : Bool
  tax_percentage : Option ℚ
  is_deduction : Bool
  deriving Repr, DecidableEq

/-- IncomeItem.calculate_net (models.py lines 79-104).
Deductions use the item's own tax_percentage (0 when unset) as the
deduction rate; untaxed income passes through; regular taxed income
uses the default tax rate. -/
def calculate_net (item : IncomeItem) (default_tax_percentage : ℚ) : ℚ :=
  if item.is_deduction then
    -item.gross_amount * item.tax_percentage.getD 0 / 100
  else if !item.is_taxed then
    item.gross_amount
  else
    item.gross_amount * (1 - default_tax_percentage / 100)

/-- _calculate_net_income (routes/goals.py lines 293-300): running total
of calculate_net over the income items. -/
def calculate_net_income (income_items : List IncomeItem)
    (default_tax_pct : ℚ) : ℚ :=
  income_items.foldl (fun total item => total + calculate_net item default_tax_pct) 0

/-- The amount of an entry with the None-guard used throughout the code:
`entry.amount if entry.amount is not None else zero`. -/
def entryAmount (e : NetWorthEntry) : ℚ := e.amount.getD 0

/-- Totals produced by NetWorthSnapshot.calculate_totals. -/
structure Totals where
  total_assets : ℚ
  total_liabilities : ℚ
  net_worth : ℚ
  personal_wealth : ℚ
  company_wealth : ℚ
  change_from_previous : ℚ
  deriving Repr, DecidableEq

/-- Accumulator of the entry loop in calculate_totals. -/
structure AggAcc where
  total_assets : ℚ
  total_liabilities : ℚ
  personal_wealth : ℚ
  company_wealth : ℚ
  deriving Repr, DecidableEq

/-- One iteration of the entry loop of NetWorthSnapshot.calculate_totals
(models.py lines 282-297): assets add to total_assets and to the
personal or company split; everything else adds to total_liabilities and,
when personal, to personal_wealth; liabilities never touch company_wealth. -/
def aggStep (acc : AggAcc) (entry : NetWorthEntry) : AggAcc :=
  let amount := entryAmount entry
  let category := entry.category
  let group := category.group
  if group.group_type = "asset" then
    if category.is_personal then
      { acc with total_assets := acc.total_assets + amount,
                 personal_wealth := acc.personal_wealth + amount }
    else
      { acc with total_assets := acc.total_assets + amount,
                 company_wealth := acc.company_wealth + amount }
  else
    if category.is_personal then
      { acc with total_liabilities := acc.total_liabilities + amount,
                 personal_wealth := acc.personal_wealth + amount }
    else
      { acc with total_liabilities := acc.total_liabilities + amount }

/-- NetWorthSnapshot.calculate_totals (models.py lines 269-306) as a pure
function of the entry list and the optional previous net worth. -/
def calculate_totals (entries : List NetWorthEntry)
    (previous_net_worth : Option ℚ) : Totals :=
  let acc := entries.foldl aggStep ⟨0, 0, 0, 0⟩
  let net_worth := acc.total_assets + acc.total_liabilities
  { total_assets := acc.total_assets
    total_liabilities := acc.total_liabilities
    net_worth := net_worth
    personal_wealth := acc.personal_wealth
    company_wealth := acc.company_wealth
    change_from_previous :=
      match previous_net_worth with
      | some p => net_worth - p
      | none => 0 }

/-- Sum of guarded amounts over a list of entries (specification side). -/
def sumAmounts (entries : List NetWorthEntry) : ℚ :=
  (entries.map entryAmount).sum

/-! ## Rounding (Python round(x, 2) with banker's rounding) -/

/-- Round a rational to the nearest integer, ties to even, as Python's
round builtin does. -/
def roundHalfEven (q : ℚ) : ℤ :=
  if q - ⌊q⌋ < 1/2 then ⌊q⌋
  else if 1/2 < q - ⌊q⌋ then ⌊q⌋ + 1
  else if ⌊q⌋ % 2 = 0 then ⌊q⌋ else ⌊q⌋ + 1

/-- Python round(x, 2): round to two decimal places, ties to even. -/
def round2 (q : ℚ) : ℚ := (roundHalfEven (q * 100) : ℚ) / 100

/-! ## Snapshot serialization: asset group totals and percentages
(NetWorthSnapshot.to_dict, models.py lines 330-356) -/

/-- Python dict upsert `group_totals[gid] = group_totals.get(gid, 0) + amt`
together with `group_names[gid] = name`, on an insertion-ordered
association list keyed by group id. -/
def upsertGroup : List (Nat × String × ℚ) → Nat → String → ℚ →
    List (Nat × String × ℚ)
  | [], gid, name, amt => [(gid, name, amt)]
  | (g, n, t) :: rest, gid, name, amt =>
    if g = gid then (g, name, t + amt) :: rest
    else (g, n, t) :: upsertGroup rest gid name amt

/-- One iteration of the group-totals loop of to_dict: asset entries
accumulate their amount under their group's id; other entries are
skipped. -/
def groupStep (acc : List (Nat × String × ℚ)) (entry : NetWorthEntry) :
    List (Nat × String × ℚ) :=
  let group := entry.category.group
  if group.group_type = "asset" then
    upsertGroup acc group.id group.name (entryAmount entry)
  else acc

/-- The group-totals loop of to_dict: for every asset entry, accumulate
its amount under its group's id and record the group's name. -/
def groupTotals (entries : List NetWorthEntry) : List (Nat × String × ℚ) :=
  entries.foldl groupStep []

/-- Association-list lookup by group id (Python dict access). -/
def lookupGroup (l : List (Nat × String × ℚ)) (gid : Nat) :
    Option (String × ℚ) :=
  match l.find? (fun p => p.1 = gid) with
  | some p => some p.2
  | none => none

/-- The percentages mapping of to_dict: when the stored total_assets is
positive, one "<group>_pct" key per collected asset group holding
round(total / total_assets * 100, 2); otherwise the empty mapping. -/
def snapshotPercentages (s : Snapshot) : List (String × ℚ) :=
  let total_assets := if s.total_assets = 0 then 0 else s.total_assets
  if 0 < total_assets then
    (groupTotals s.entries).map
      (fun g => (g.2.1 ++ "_pct", round2 (g.2.2 / total_assets * 100)))
  else []

/-! ## Goals (src/backend/app/routes/goals.py)

The Goal record here carries the attributes the goal routes read,
including tracking_period and starting_value which the routes set and
consume. -/

/-- Goal as used by routes/goals.py. -/
structure Goal where
  goal_type : String
  target_value : ℚ
  category_id : Option Nat
  category : Option NetWorthCategory
  tracking_period : Option String
  starting_value : Option ℚ
  deriving Repr, DecidableEq

/-- Python truthiness of an optional integer (None and 0 are falsy). -/
def natTruthy : Option Nat → Bool
  | none => false
  | some n => n != 0

/-- Python truthiness of an optional string (None and "" are falsy). -/
def strTruthy : Option String → Bool
  | none => false
  | some s => s != ""

/-- TRACKING_PERIOD_MONTHS.get(tp, 1) (routes/goals.py lines 29-34). -/
def trackingPeriodMonths (tp : String) : Nat :=
  if tp = "month" then 1
  else if tp = "quarter" then 3
  else if tp = "half_year" then 6
  else if tp = "year" then 12
  else 1

/-- _get_category_amount_in_snapshot (routes/goals.py lines 283-290):
amount of the first entry matching the category id, 0 when absent or
when the stored amount is None. -/
def getCategoryAmountInSnapshot (snapshot : Snapshot) (category_id : Nat) : ℚ :=
  match snapshot.entries.find? (fun e => e.category_id = category_id) with
  | some entry => entry.amount.getD 0
  | none => 0

/-- The consecutive-pair delta loop shared by the goal-progress branches
(routes/goals.py lines 372-390 and 416-434) and the trend estimators
(forecasting.py lines 86-91 and 279-288):
`for i in range(min(k, len(snapshots) - 1)): f(snapshots[i]) - f(snapshots[i+1])`,
instantiated with net_worth or with a category amount. -/
def pairDeltas (f : Snapshot → ℚ) : List Snapshot → Nat → List ℚ
  | x :: y :: rest, k + 1 => (f x - f y) :: pairDeltas f (y :: rest) k
  | _, _ => []

/-- details["is_liability"] for a category_target goal (routes/goals.py
lines 339-343): the goal has a category whose group is a liability. -/
def goalIsLiability (g : Goal) : Bool :=
  match g.category with
  | some c => c.group.group_type = "liability"
  | none => false

/-- The current_value computation of _calculate_goal_progress
(routes/goals.py lines 324-451), one branch per goal_type string. -/
def calcCurrentValue (g : Goal) (snapshots : List Snapshot)
    (net_income : ℚ) : ℚ :=
  let latest := snapshots.head?
  if g.goal_type = "net_worth_target" then
    match latest with
    | some l => l.net_worth
    | none => 0
  else if g.goal_type = "category_target" then
    match latest with
    | some l =>
      if natTruthy g.category_id then
        let v := getCategoryAmountInSnapshot l (g.category_id.getD 0)
        if goalIsLiability g then |v| else v
      else 0
    | none => 0
  else if g.goal_type = "category_monthly" then
    if natTruthy g.category_id ∧ strTruthy g.tracking_period then
      if 2 ≤ snapshots.length then
        let num_months := trackingPeriodMonths (g.tracking_period.getD "")
        let deltas :=
          pairDeltas (fun s => getCategoryAmountInSnapshot s (g.category_id.getD 0))
            snapshots num_months
        if 0 < deltas.length then deltas.sum / deltas.length else 0
      else 0
    else 0
  else if g.goal_type = "category_rate" then
    if natTruthy g.category_id ∧ strTruthy g.tracking_period ∧ 0 < net_income then
      if 2 ≤ snapshots.length then
        let num_months := trackingPeriodMonths (g.tracking_period.getD "")
        let deltas :=
          pairDeltas (fun s => getCategoryAmountInSnapshot s (g.category_id.getD 0))
            snapshots num_months
        if 0 < deltas.length then deltas.sum / deltas.length / net_income * 100
        else 0
      else 0
    else 0
  else 0

/-- The liability-paydown discriminator of _calculate_goal_progress
(routes/goals.py lines 455-459): a category_target goal on a liability
category with a recorded starting_value. -/
def isLiabilityGoal (g : Goal) : Bool :=
  g.goal_type = "category_target" && goalIsLiability g &&
    g.starting_value.isSome

/-- The branch-specific progress percentage before clamping
(routes/goals.py lines 461-482). -/
def calcProgressPct (g : Goal) (current_value : ℚ) : ℚ :=
  let target := g.target_value
  if isLiabilityGoal g then
    let starting := g.starting_value.getD 0
    if target < starting then
      (starting - current_value) / (starting - target) * 100
    else if starting = target then 100
    else 0
  else
    if 0 < target then current_value / target * 100
    else if target = 0 ∧ 0 ≤ current_value then 100
    else 0

/-- The fields of the goal-progress response that the verified claims
concern (routes/goals.py lines 508-516). -/
structure ProgressResult where
  current_value : ℚ
  target_value : ℚ
  progress_percentage : ℚ
  is_achieved : Bool
  deriving Repr, DecidableEq

/-- _calculate_goal_progress (routes/goals.py lines 303-516) restricted to
current_value, target_value, progress_percentage and is_achieved: compute
the branch value, cap at 100, floor at 0, round to two decimals, and set
is_achieved by current <= target for liability-paydown goals and
current >= target otherwise. -/
def calcGoalProgress (g : Goal) (snapshots : List Snapshot)
    (net_income : ℚ) : ProgressResult :=
  let current_value := calcCurrentValue g snapshots net_income
  let pct0 := calcProgressPct g current_value
  let pct1 := min pct0 100
  let pct2 := max pct1 0
  let is_achieved :=
    if isLiabilityGoal g then decide (current_value ≤ g.target_value)
    else decide (g.target_value ≤ current_value)
  { current_value := current_value
    target_value := g.target_value
    progress_percentage := round2 pct2
    is_achieved := is_achieved }

/-- The starting-value capture of create_goal (routes/goals.py lines
129-144): for a category_target goal with a truthy category id whose
category's group is a liability, take the stored amount of the latest
snapshot's first entry for that category; otherwise leave it unset.
The latest snapshot (the query ordered by year desc, month desc) is
passed in as an optional argument. -/
def captureStartingValue (goal_type : String) (category_id : Option Nat)
    (categories : List NetWorthCategory)
    (latest_snapshot : Option Snapshot) : Option ℚ :=
  if goal_type = "category_target" && natTruthy category_id then
    match categories.find? (fun c => c.id = category_id.getD 0) with
    | some category =>
      if category.group.group_type = "liability" then
        match latest_snapshot with
        | some snap =>
          match snap.entries.find? (fun e => e.category_id = category_id.getD 0) with
          | some entry => entry.amount
          | none => none
        | none => none
      else none
    | none => none
  else none

/-! ## Serialization keys of the Goal model (models.py lines 397-440) -/

/-- The keys emitted by Goal.to_dict in models.py (lines 428-440). -/
def goalToDictKeys : List String :=
  ["id", "name", "goal_type", "target_value", "category_id", "category",
   "target_date", "is_active", "created_at"]

/-- The column attributes declared on the Goal model in models.py
(lines 408-423). -/
def goalModelColumns : List String :=
  ["id", "name", "goal_type", "target_value", "category_id",
   "target_date", "is_active", "created_at"]

/-! ## Forecasting (src/backend/app/forecasting.py) -/

/-- PERIOD_MONTHS.get(period, 3) (forecasting.py lines 25-30, used with a
default of 3 at line 80). -/
def periodMonths (period : String) : Nat :=
  if period = "month" then 1
  else if period = "quarter" then 3
  else if period = "half_year" then 6
  else if period = "year" then 12
  else 3

/-- calculate_monthly_change_rate (forecasting.py lines 64-97): with fewer
than 2 snapshots return (0, 0); otherwise average the consecutive-pair
net-worth deltas over the period window and report the pair count. -/
def calculate_monthly_change_rate (snapshots : List Snapshot)
    (period : String) : ℚ × Nat :=
  if snapshots.length < 2 then (0, 0)
  else
    let num_months := periodMonths period
    let deltas := pairDeltas (fun s => s.net_worth) snapshots num_months
    if deltas.length = 0 then (0, 0)
    else (deltas.sum / deltas.length, deltas.length)

/-- A single forecast projection point (forecasting.py lines 33-39). -/
structure ForecastPoint where
  month : Nat
  year : Int
  projected_net_worth : ℚ
  deriving Repr, DecidableEq

/-- NetWorthForecast (forecasting.py lines 42-50). -/
structure NetWorthForecast where
  period : String
  months_ahead : Nat
  monthly_change_rate : ℚ
  data_points_used : Nat
  projections : List ForecastPoint
  deriving Repr, DecidableEq

/-- The month-overflow loop `while next_month > 12: next_month -= 12;
next_year += 1` (forecasting.py lines 133-135), with explicit fuel
bounding the number of iterations (the fuel used below always suffices). -/
def normMonthAux : Nat → Nat → Int → Nat × Int
  | 0, m, y => (m, y)
  | fuel + 1, m, y => if 12 < m then normMonthAux fuel (m - 12) (y + 1) else (m, y)

/-- Month/year normalization by the overflow loop; m iterations of fuel
are always enough since each iteration removes 12 from the month. -/
def normalizeMonth (m : Nat) (y : Int) : Nat × Int := normMonthAux m m y

/-- generate_net_worth_forecast (forecasting.py lines 100-153): compute
the trend rate, then for i = 1..months_ahead emit the carried month/year
and round(latest.net_worth + rate * i, 2); no snapshots means no
projections. -/
def generate_net_worth_forecast (snapshots : List Snapshot)
    (period : String) (months_ahead : Nat) : NetWorthForecast :=
  let rd := calculate_monthly_change_rate snapshots period
  let monthly_rate := rd.1
  let projections : List ForecastPoint :=
    match snapshots.head? with
    | none => []
    | some latest =>
      (List.range months_ahead).map
        (fun j =>
          let i := j + 1
          let my := normalizeMonth (latest.month + i) latest.year
          { month := my.1
            year := my.2
            projected_net_worth := round2 (latest.net_worth + monthly_rate * i) })
  { period := period
    months_ahead := months_ahead
    monthly_change_rate := round2 monthly_rate
    data_points_used := rd.2
    projections := projections }

/-! ## Helper lemmas -/

theorem foldl_add_calculate_net (items : List IncomeItem) (d acc : ℚ) :
    items.foldl (fun total item => total + calculate_net item d) acc =
      acc + (items.map (fun item => calculate_net item d)).sum := by
  induction items generalizing acc with
  | nil => simp
  | cons item rest ih =>
    simp only [List.foldl_cons, List.map_cons, List.sum_cons, ih]
    ring

theorem calculate_net_income_eq_sum (items : List IncomeItem) (d : ℚ) :
    calculate_net_income items d =
      (items.map (fun item => calculate_net item d)).sum := by
  unfold calculate_net_income
  rw [foldl_add_calculate_net]
  ring

theorem agg_foldl (entries : List NetWorthEntry) (acc : AggAcc) :
    entries.foldl aggStep acc =
      { total_assets := acc.total_assets +
          sumAmounts (entries.filter
            (fun e => e.category.group.group_type = "asset"))
        total_liabilities := acc.total_liabilities +
          sumAmounts (entries.filter
            (fun e => ¬ e.category.group.group_type = "asset"))
        personal_wealth := acc.personal_wealth +
          sumAmounts (entries.filter (fun e => e.category.is_personal))
        company_wealth := acc.company_wealth +
          sumAmounts (entries.filter
            (fun e => e.category.group.group_type = "asset" ∧
              ¬ e.category.is_personal)) } := by
  induction entries generalizing acc with
  | nil => simp [sumAmounts]
  | cons e rest ih =>
    simp only [List.foldl_cons, ih, List.filter_cons]
    by_cases hg : e.category.group.group_type = "asset" <;>
      by_cases hp : e.category.is_personal <;>
        simp [aggStep, hg, hp, sumAmounts, AggAcc.mk.injEq, add_assoc]

theorem pairDeltas_eq_range (f : Snapshot → ℚ) :
    ∀ (snapshots : List Snapshot) (k : Nat),
      pairDeltas f snapshots k =
        (List.range (min k (snapshots.length - 1))).map
          (fun i => f (snapshots.getD i dummySnapshot) -
            f (snapshots.getD (i + 1) dummySnapshot))
  | [], k => by simp [pairDeltas]
  | [x], k => by simp [pairDeltas]
  | x :: y :: rest, 0 => by simp [pairDeltas]
  | x :: y :: rest, k + 1 => by
    have ih := pairDeltas_eq_range f (y :: rest) k
    simp only [pairDeltas, ih, List.length_cons]
    have hmin : min (k + 1) (rest.length + 1 + 1 - 1) =
        min k (rest.length + 1 - 1) + 1 := by omega
    rw [hmin, List.range_succ_eq_map]
    simp only [List.map_cons, List.map_map]
    congr 1

theorem pairDeltas_length (f : Snapshot → ℚ) (snapshots : List Snapshot)
    (k : Nat) :
    (pairDeltas f snapshots k).length = min k (snapshots.length - 1) := by
  rw [pairDeltas_eq_range]
  simp

theorem roundHalfEven_nonneg {q : ℚ} (h : 0 ≤ q) : 0 ≤ roundHalfEven q := by
  unfold roundHalfEven
  have hf : (0 : ℤ) ≤ ⌊q⌋ := Int.floor_nonneg.mpr h
  split_ifs <;> omega

theorem roundHalfEven_le {q : ℚ} {n : ℤ} (h : q ≤ n) : roundHalfEven q ≤ n := by
  unfold roundHalfEven
  have hf : ⌊q⌋ ≤ n := by
    calc ⌊q⌋ ≤ ⌊(n : ℚ)⌋ := Int.floor_le_floor h
    _ = n := Int.floor_intCast n
  have hkey : ¬ q - ⌊q⌋ < 1 / 2 → ⌊q⌋ < n := by
    intro hr
    push_neg at hr
    rcases lt_or_eq_of_le hf with hlt | heq
    · exact hlt
    · exfalso
      have hq : q ≤ (⌊q⌋ : ℚ) := by rw [heq]; exact_mod_cast h
      have : (0 : ℚ) < 1 / 2 := by norm_num
      linarith
  split_ifs with h1 h2 h3
  · exact hf
  · have := hkey h1
    omega
  · exact hf
  · have := hkey h1
    omega

theorem round2_bounds {q : ℚ} (h0 : 0 ≤ q) (h100 : q ≤ 100) :
    0 ≤ round2 q ∧ round2 q ≤ 100 := by
  unfold round2
  have h1 : (0 : ℤ) ≤ roundHalfEven (q * 100) :=
    roundHalfEven_nonneg (by positivity)
  have h2 : roundHalfEven (q * 100) ≤ (10000 : ℤ) :=
    roundHalfEven_le (by push_cast; linarith)
  constructor
  · apply div_nonneg _ (by norm_num)
    exact_mod_cast h1
  · rw [div_le_iff₀ (by norm_num)]
    have : ((roundHalfEven (q * 100) : ℤ) : ℚ) ≤ ((10000 : ℤ) : ℚ) := by
      exact_mod_cast h2
    push_cast at this ⊢
    linarith

theorem normMonthAux_eq (fuel : Nat) :
    ∀ (m : Nat) (y : Int), 1 ≤ m → m ≤ 12 * fuel + 12 →
      normMonthAux fuel m y = ((m - 1) % 12 + 1, y + (((m - 1) / 12 : Nat) : Int)) := by
  induction fuel with
  | zero =>
    intro m y hm hle
    simp only [normMonthAux]
    have h1 : (m - 1) % 12 = m - 1 := Nat.mod_eq_of_lt (by omega)
    have h2 : (m - 1) / 12 = 0 := Nat.div_eq_of_lt (by omega)
    rw [h1, h2, show m - 1 + 1 = m by omega]
    simp
  | succ fuel ih =>
    intro m y hm hle
    simp only [normMonthAux]
    split_ifs with h12
    · rw [ih (m - 12) (y + 1) (by omega) (by omega)]
      refine Prod.ext ?_ ?_
      · simp only
        omega
      · simp only
        have hdiv : (m - 12 - 1) / 12 + 1 = (m - 1) / 12 := by omega
        omega
    · have h1 : (m - 1) % 12 = m - 1 := Nat.mod_eq_of_lt (by omega)
      have h2 : (m - 1) / 12 = 0 := Nat.div_eq_of_lt (by omega)
      rw [h1, h2, show m - 1 + 1 = m by omega]
      simp

theorem normalizeMonth_eq (m : Nat) (y : Int) (hm : 1 ≤ m) :
    normalizeMonth m y = ((m - 1) % 12 + 1, y + (((m - 1) / 12 : Nat) : Int)) :=
  normMonthAux_eq m m y hm (by omega)

theorem one_le_trackingPeriodMonths (tp : String) :
    1 ≤ trackingPeriodMonths tp := by
  unfold trackingPeriodMonths
  split_ifs <;> norm_num

theorem one_le_periodMonths (period : String) : 1 ≤ periodMonths period := by
  unfold periodMonths
  split_ifs <;> norm_num

theorem lookupGroup_upsert_self (l : List (Nat × String × ℚ)) (gid : Nat)
    (name : String) (amt : ℚ) :
    lookupGroup (upsertGroup l gid name amt) gid =
      some (name, (((lookupGroup l gid).map Prod.snd).getD 0) + amt) := by
  induction l with
  | nil => simp [upsertGroup, lookupGroup, List.find?]
  | cons p rest ih =>
    obtain ⟨g, n, t⟩ := p
    by_cases hg : g = gid
    · subst hg
      simp [upsertGroup, lookupGroup, List.find?, add_comm]
    · simp only [upsertGroup, if_neg hg]
      simp only [lookupGroup, List.find?] at ih ⊢
      have hd : (decide (g = gid)) = false := by simp [hg]
      rw [hd]
      simpa [lookupGroup] using ih

theorem lookupGroup_upsert_other (l : List (Nat × String × ℚ)) (gid : Nat)
    (name : String) (amt : ℚ) (gid' : Nat) (h : gid' ≠ gid) :
    lookupGroup (upsertGroup l gid name amt) gid' = lookupGroup l gid' := by
  induction l with
  | nil =>
    simp [upsertGroup, lookupGroup, List.find?, Ne.symm h]
  | cons p rest ih =>
    obtain ⟨g, n, t⟩ := p
    by_cases hg : g = gid
    · subst hg
      have hd : (decide (g = gid')) = false := by simp [Ne.symm h]
      simp [upsertGroup, lookupGroup, List.find?, Ne.symm h]
    · simp only [upsertGroup, if_neg hg]
      by_cases hg' : g = gid'
      · subst hg'
        simp [lookupGroup, List.find?]
      · simp only [lookupGroup, List.find?] at ih ⊢
        have hd : (decide (g = gid')) = false := by simp [hg']
        rw [hd]
        exact ih

theorem groupTotals_foldl_total (entries : List NetWorthEntry)
    (acc : List (Nat × String × ℚ)) (gid : Nat) :
    ((lookupGroup (entries.foldl groupStep acc) gid).map Prod.snd).getD 0 =
      ((lookupGroup acc gid).map Prod.snd).getD 0 +
        sumAmounts (entries.filter
          (fun e => e.category.group.group_type = "asset" ∧
            e.category.group.id = gid)) := by
  induction entries generalizing acc with
  | nil => simp [sumAmounts]
  | cons e rest ih =>
    simp only [List.foldl_cons, ih, List.filter_cons]
    by_cases hg : e.category.group.group_type = "asset"
    · by_cases hid : e.category.group.id = gid
      · simp only [groupStep, if_pos hg, hid]
        rw [lookupGroup_upsert_self]
        simp [hg, hid, sumAmounts]
        ring
      · simp only [groupStep, if_pos hg]
        rw [lookupGroup_upsert_other _ _ _ _ _ (Ne.symm hid)]
        simp [hg, hid, sumAmounts]
    · simp [groupStep, if_neg hg, hg, sumAmounts]

theorem groupTotals_foldl_isSome (entries : List NetWorthEntry)
    (acc : List (Nat × String × ℚ)) (gid : Nat) :
    (lookupGroup (entries.foldl groupStep acc) gid).isSome =
      ((lookupGroup acc gid).isSome ||
        entries.any (fun e => e.category.group.group_type = "asset" ∧
          e.category.group.id = gid)) := by
  induction entries generalizing acc with
  | nil => simp
  | cons e rest ih =>
    simp only [List.foldl_cons, ih, List.any_cons]
    by_cases hg : e.category.group.group_type = "asset"
    · by_cases hid : e.category.group.id = gid
      · simp only [groupStep, if_pos hg, hid]
        rw [lookupGroup_upsert_self]
        simp [hg, hid]
      · simp only [groupStep, if_pos hg]
        rw [lookupGroup_upsert_other _ _ _ _ _ (Ne.symm hid)]
        simp [hg, hid]
    · simp [groupStep, if_neg hg, hg]

theorem lookupGroup_mem {l : List (Nat × String × ℚ)} {gid : Nat}
    {n : String} {t : ℚ} (h : lookupGroup l gid = some (n, t)) :
    (gid, n, t) ∈ l := by
  unfold lookupGroup at h
  cases hf : l.find? (fun p => p.1 = gid) with
  | none => rw [hf] at h; exact absurd h (by simp)
  | some p =>
    rw [hf] at h
    have hp : p ∈ l := List.mem_of_find?_eq_some hf
    have hpred := List.find?_some hf
    simp only [decide_eq_true_eq] at hpred
    obtain ⟨g, n', t'⟩ := p
    simp only [Option.some.injEq] at h
    simp only at hpred
    subst hpred
    rw [← h]
    exact hp

theorem forecast_projections_get (snapshots : List Snapshot)
    (latest : Snapshot) (period : String) (months_ahead i : Nat)
    (hl : snapshots.head? = some latest)
    (hm1 : 1 ≤ latest.month) (hm2 : latest.month ≤ 12)
    (hi : i < months_ahead) :
    (generate_net_worth_forecast snapshots period months_ahead).projections[i]? =
      some { month := (latest.month - 1 + (i + 1)) % 12 + 1
             year := latest.year + (((latest.month - 1 + (i + 1)) / 12 : Nat) : Int)
             projected_net_worth :=
               round2 (latest.net_worth +
                 (calculate_monthly_change_rate snapshots period).1 *
                   ((i : ℚ) + 1)) } := by
  simp only [generate_net_worth_forecast, hl]
  rw [List.getElem?_map, List.getElem?_range hi]
  simp only [Option.map_some']
  rw [normalizeMonth_eq _ _ (by omega)]
  have hmonth : latest.month + (i + 1) - 1 = latest.month - 1 + (i + 1) := by
    omega
  simp only [hmonth, Option.some.injEq, ForecastPoint.mk.injEq]
  norm_num

/-! ## Claim theorems -/

/-- Claim C1, counterexample: the claim states that a taxed item uses its
own tax_percentage when set (here 50), but calculate_net taxes the item
at the supplied default rate (here 25): the net of a 100 gross taxed item
with its own rate 50 is 75, not 100 × (1 − 50/100) = 50. -/
theorem claim_C1_counterexample :
    calculate_net ⟨100, true, some 50, false⟩ 25 = 75 ∧
    ¬ calculate_net ⟨100, true, some 50, false⟩ 25 = 100 * (1 - 50 / 100) := by
  constructor <;> norm_num [calculate_net]

/-- Claim C1 (amended): per-item net income is −gross × (own rate)/100 for
a deduction item (rate 0 when unset), gross × (1 − default/100) for a
taxed item — the global default rate is used unconditionally, the item's
own tax_percentage is only a deduction rate — and gross for an untaxed
item; the total net income is the sum of the per-item nets. -/
theorem claim_C1_amended (item : IncomeItem) (d : ℚ) (items : List IncomeItem) :
    (item.is_deduction = true → ∀ r, item.tax_percentage = some r →
      calculate_net item d = -item.gross_amount * r / 100) ∧
    (item.is_deduction = true → item.tax_percentage = none →
      calculate_net item d = -item.gross_amount * 0 / 100) ∧
    (item.is_deduction = false → item.is_taxed = true →
      calculate_net item d = item.gross_amount * (1 - d / 100)) ∧
    (item.is_deduction = false → item.is_taxed = false →
      calculate_net item d = item.gross_amount) ∧
    calculate_net_income items d =
      (items.map (fun it => calculate_net it d)).sum := by
  refine ⟨?_, ?_, ?_, ?_, calculate_net_income_eq_sum items d⟩ <;>
    intros <;> simp [calculate_net, *]

/-- Claim C1 witness: the amended claim evaluated at concrete items —
a 280 deduction at rate 75 nets −210, a 1000 taxed item at default 20
nets 800, an untaxed 1000 item nets 1000, and a two-item list sums. -/
theorem claim_C1_witness :
    calculate_net ⟨280, true, some 75, true⟩ 25 = -280 * 75 / 100 ∧
    calculate_net ⟨1000, true, none, false⟩ 20 = 1000 * (1 - 20 / 100) ∧
    calculate_net ⟨1000, false, none, false⟩ 20 = 1000 ∧
    calculate_net_income [⟨280, true, some 75, true⟩, ⟨1000, true, none, false⟩] 20 =
      ([⟨280, true, some 75, true⟩, ⟨1000, true, none, false⟩].map
        (fun it => calculate_net it 20)).sum :=
  ⟨(claim_C1_amended ⟨280, true, some 75, true⟩ 25 []).1 rfl 75 rfl,
   (claim_C1_amended ⟨1000, true, none, false⟩ 20 []).2.2.1 rfl rfl,
   (claim_C1_amended ⟨1000, false, none, false⟩ 20 []).2.2.2.1 rfl rfl,
   (claim_C1_amended ⟨1000, false, none, false⟩ 20
     [⟨280, true, some 75, true⟩, ⟨1000, true, none, false⟩]).2.2.2.2⟩

/-- Claim C2: contrary to the claim, the Goal model of models.py neither
declares tracking_period / starting_value columns nor emits those keys
from Goal.to_dict, even though routes/goals.py sets and reads both and
the test suite asserts their presence in serialized goals. -/
theorem claim_C2_missing_fields :
    ¬ "tracking_period" ∈ goalToDictKeys ∧
    ¬ "starting_value" ∈ goalToDictKeys ∧
    ¬ "tracking_period" ∈ goalModelColumns ∧
    ¬ "starting_value" ∈ goalModelColumns := by
  decide

/-- Claim C3: aggregation sums asset amounts into total_assets, liability
amounts into total_liabilities, net_worth is their sum, personal_wealth
sums personal entries of both kinds, company_wealth sums non-personal
asset entries only, and a non-personal liability entry contributes to
neither personal_wealth nor company_wealth. -/
theorem claim_C3_aggregation (entries : List NetWorthEntry) (prev : Option ℚ)
    (hwf : ∀ e ∈ entries, e.category.group.group_type = "asset" ∨
      e.category.group.group_type = "liability") :
    (calculate_totals entries prev).total_assets =
      sumAmounts (entries.filter
        (fun e => e.category.group.group_type = "asset")) ∧
    (calculate_totals entries prev).total_liabilities =
      sumAmounts (entries.filter
        (fun e => e.category.group.group_type = "liability")) ∧
    (calculate_totals entries prev).net_worth =
      (calculate_totals entries prev).total_assets +
        (calculate_totals entries prev).total_liabilities ∧
    (calculate_totals entries prev).personal_wealth =
      sumAmounts (entries.filter (fun e => e.category.is_personal)) ∧
    (calculate_totals entries prev).company_wealth =
      sumAmounts (entries.filter
        (fun e => e.category.group.group_type = "asset" ∧
          ¬ e.category.is_personal)) ∧
    (∀ (xs ys : List NetWorthEntry) (e : NetWorthEntry),
      e.category.group.group_type = "liability" →
      e.category.is_personal = false →
      (calculate_totals (xs ++ e :: ys) prev).personal_wealth =
        (calculate_totals (xs ++ ys) prev).personal_wealth ∧
      (calculate_totals (xs ++ e :: ys) prev).company_wealth =
        (calculate_totals (xs ++ ys) prev).company_wealth) := by
  refine ⟨?_, ?_, ?_, ?_, ?_, ?_⟩
  · simp only [calculate_totals, agg_foldl]
    simp
  · simp only [calculate_totals, agg_foldl]
    simp
    congr 1
    apply List.filter_congr
    intro e he
    rcases hwf e he with h | h <;> simp [h]
  · simp only [calculate_totals, agg_foldl]
  · simp only [calculate_totals, agg_foldl]
    simp
  · simp only [calculate_totals, agg_foldl]
    simp
  · intro xs ys e he hp
    have hpe : (fun e => (decide e.category.is_personal : Bool)) e = false := by
      simp [hp]
    have hce : (fun e => (decide (e.category.group.group_type = "asset" ∧
        ¬ e.category.is_personal) : Bool)) e = false := by
      simp [he]
    constructor <;>
      · simp only [calculate_totals, agg_foldl]
        simp [List.filter_append, List.filter_cons, he, hp]

/-- Claim C3 witness: aggregation of a personal 60000 asset entry, a
personal −10000 liability entry and a non-personal −500 liability entry;
the non-personal liability leaves personal and company wealth unchanged. -/
theorem claim_C3_witness :
    (calculate_totals
        [⟨1, ⟨1, "Cash", true, ⟨1, "Cash", "asset"⟩⟩, some 60000⟩,
         ⟨2, ⟨2, "Loan", true, ⟨2, "Loans", "liability"⟩⟩, some (-10000)⟩]
        none).total_assets =
      sumAmounts
        ([⟨1, ⟨1, "Cash", true, ⟨1, "Cash", "asset"⟩⟩, some 60000⟩,
          ⟨2, ⟨2, "Loan", true, ⟨2, "Loans", "liability"⟩⟩, some (-10000)⟩].filter
          (fun e => e.category.group.group_type = "asset")) ∧
    (calculate_totals
        ([] ++ (⟨3, ⟨3, "CoLoan", false, ⟨2, "Loans", "liability"⟩⟩,
            some (-500)⟩ : NetWorthEntry) ::
          [⟨1, ⟨1, "Cash", true, ⟨1, "Cash", "asset"⟩⟩, some 60000⟩])
        none).personal_wealth =
      (calculate_totals
        ([] ++ [⟨1, ⟨1, "Cash", true, ⟨1, "Cash", "asset"⟩⟩, some 60000⟩])
        none).personal_wealth := by
  constructor
  · exact (claim_C3_aggregation _ none (by decide)).1
  · exact ((claim_C3_aggregation [] none (by simp)).2.2.2.2.2
      [] [⟨1, ⟨1, "Cash", true, ⟨1, "Cash", "asset"⟩⟩, some 60000⟩]
      ⟨3, ⟨3, "CoLoan", false, ⟨2, "Loans", "liability"⟩⟩, some (-500)⟩
      rfl rfl).1

/-- Claim C5: the progress percentage of every goal evaluation lies in
[0, 100]: each branch's raw percentage is capped at 100, floored at 0,
and two-decimal rounding preserves the bounds. -/
theorem claim_C5_clamped (g : Goal) (snapshots : List Snapshot)
    (net_income : ℚ) :
    0 ≤ (calcGoalProgress g snapshots net_income).progress_percentage ∧
    (calcGoalProgress g snapshots net_income).progress_percentage ≤ 100 := by
  simp only [calcGoalProgress]
  exact round2_bounds (le_max_right _ _)
    (max_le (min_le_right _ _) (by norm_num))

/-- Claim C4: a liability-paydown goal (category_target on a liability
category with a recorded starting_value) is achieved exactly when
current_value <= target_value; every other goal is achieved exactly when
current_value >= target_value; and for a liability category_target goal
with a latest snapshot the current value is the absolute value of the
category's latest entry amount. -/
theorem claim_C4_achievement (g : Goal) (snapshots : List Snapshot)
    (net_income : ℚ) :
    ((g.goal_type = "category_target" ∧ goalIsLiability g = true ∧
        g.starting_value.isSome = true) →
      ((calcGoalProgress g snapshots net_income).is_achieved = true ↔
        (calcGoalProgress g snapshots net_income).current_value ≤
          (calcGoalProgress g snapshots net_income).target_value)) ∧
    (¬ (g.goal_type = "category_target" ∧ goalIsLiability g = true ∧
        g.starting_value.isSome = true) →
      ((calcGoalProgress g snapshots net_income).is_achieved = true ↔
        (calcGoalProgress g snapshots net_income).target_value ≤
          (calcGoalProgress g snapshots net_income).current_value)) ∧
    (∀ (l : Snapshot) (cid : Nat),
      snapshots.head? = some l → g.goal_type = "category_target" →
      g.category_id = some cid → cid ≠ 0 → goalIsLiability g = true →
      (calcGoalProgress g snapshots net_income).current_value =
        |getCategoryAmountInSnapshot l cid|) := by
  have hiff : isLiabilityGoal g = true ↔
      (g.goal_type = "category_target" ∧ goalIsLiability g = true ∧
        g.starting_value.isSome = true) := by
    simp [isLiabilityGoal, Bool.and_eq_true, decide_eq_true_eq, and_assoc]
  refine ⟨?_, ?_, ?_⟩
  · intro h
    simp only [calcGoalProgress]
    rw [if_pos (hiff.mpr h)]
    simp
  · intro h
    simp only [calcGoalProgress]
    rw [if_neg (fun hx => h (hiff.mp hx))]
    simp
  · intro l cid hl hgt hcid hc0 hliab
    simp only [calcGoalProgress, calcCurrentValue, hgt, hl, hcid]
    norm_num [natTruthy, hc0, hliab]
    exact fun h => absurd h (by decide)

/-- Claim C4 witness: a liability-paydown goal with current 10000 and
target 0 is not achieved (10000 > 0 under the <= rule); a net-worth goal
with current 50000 and target 100000 is not achieved under the >= rule;
the liability current value is the absolute value |−10000| of the latest
entry. -/
theorem claim_C4_witness :
    ((calcGoalProgress
        ⟨"category_target", 0, some 2,
          some ⟨2, "Loan", true, ⟨2, "Loans", "liability"⟩⟩, none,
          some (-26728)⟩
        [⟨1, 2024, 50000, 60000,
          [⟨2, ⟨2, "Loan", true, ⟨2, "Loans", "liability"⟩⟩, some (-10000)⟩]⟩]
        0).is_achieved = true ↔
      (calcGoalProgress
        ⟨"category_target", 0, some 2,
          some ⟨2, "Loan", true, ⟨2, "Loans", "liability"⟩⟩, none,
          some (-26728)⟩
        [⟨1, 2024, 50000, 60000,
          [⟨2, ⟨2, "Loan", true, ⟨2, "Loans", "liability"⟩⟩, some (-10000)⟩]⟩]
        0).current_value ≤
      (calcGoalProgress
        ⟨"category_target", 0, some 2,
          some ⟨2, "Loan", true, ⟨2, "Loans", "liability"⟩⟩, none,
          some (-26728)⟩
        [⟨1, 2024, 50000, 60000,
          [⟨2, ⟨2, "Loan", true, ⟨2, "Loans", "liability"⟩⟩, some (-10000)⟩]⟩]
        0).target_value) ∧
    ((calcGoalProgress ⟨"net_worth_target", 100000, none, none, none, none⟩
        [⟨1, 2024, 50000, 60000, []⟩] 0).is_achieved = true ↔
      (calcGoalProgress ⟨"net_worth_target", 100000, none, none, none, none⟩
        [⟨1, 2024, 50000, 60000, []⟩] 0).target_value ≤
      (calcGoalProgress ⟨"net_worth_target", 100000, none, none, none, none⟩
        [⟨1, 2024, 50000, 60000, []⟩] 0).current_value) ∧
    (calcGoalProgress
        ⟨"category_target", 0, some 2,
          some ⟨2, "Loan", true, ⟨2, "Loans", "liability"⟩⟩, none,
          some (-26728)⟩
        [⟨1, 2024, 50000, 60000,
          [⟨2, ⟨2, "Loan", true, ⟨2, "Loans", "liability"⟩⟩, some (-10000)⟩]⟩]
        0).current_value =
      |getCategoryAmountInSnapshot
        ⟨1, 2024, 50000, 60000,
          [⟨2, ⟨2, "Loan", true, ⟨2, "Loans", "liability"⟩⟩, some (-10000)⟩]⟩ 2| :=
  ⟨(claim_C4_achievement _ _ 0).1 ⟨rfl, rfl, rfl⟩,
   (claim_C4_achievement _ _ 0).2.1 (by decide),
   (claim_C4_achievement _ _ 0).2.2 _ 2 rfl rfl rfl (by decide) rfl⟩

/-- Claim C6: the trend estimator returns rate 0 with 0 points when fewer
than 2 snapshots exist; otherwise the rate is the arithmetic mean of the
consecutive-pair net-worth differences over the first
min(window, length − 1) pairs and points_used is that pair count, for the
windows month=1, quarter=3, half_year=6, year=12. -/
theorem claim_C6_trend (snapshots : List Snapshot) (period : String) (w : Nat)
    (hw : (period, w) ∈
      [("month", 1), ("quarter", 3), ("half_year", 6), ("year", 12)]) :
    (snapshots.length < 2 →
      calculate_monthly_change_rate snapshots period = (0, 0)) ∧
    (2 ≤ snapshots.length →
      calculate_monthly_change_rate snapshots period =
        (((List.range (min w (snapshots.length - 1))).map
            (fun i => (snapshots.getD i dummySnapshot).net_worth -
              (snapshots.getD (i + 1) dummySnapshot).net_worth)).sum /
          ((min w (snapshots.length - 1) : Nat) : ℚ),
         min w (snapshots.length - 1))) := by
  have hpw : periodMonths period = w ∧ 1 ≤ w := by
    simp only [List.mem_cons, Prod.mk.injEq, List.not_mem_nil, or_false] at hw
    rcases hw with ⟨h1, h2⟩ | ⟨h1, h2⟩ | ⟨h1, h2⟩ | ⟨h1, h2⟩ <;>
      subst h1 <;> subst h2 <;> exact ⟨rfl, by norm_num⟩
  constructor
  · intro h
    simp only [calculate_monthly_change_rate]
    rw [if_pos h]
  · intro h
    simp only [calculate_monthly_change_rate]
    rw [if_neg (by omega : ¬ snapshots.length < 2)]
    rw [pairDeltas_eq_range, hpw.1]
    have hlen : ((List.range (min w (snapshots.length - 1))).map
        (fun i => (snapshots.getD i dummySnapshot).net_worth -
          (snapshots.getD (i + 1) dummySnapshot).net_worth)).length =
        min w (snapshots.length - 1) := by
      simp
    rw [if_neg (by rw [hlen]; omega)]
    rw [hlen]

/-- Claim C6 witness: two snapshots with net worths 10 and 4 over the
quarter window give rate (10 − 4)/1 with 1 point used, and a single
snapshot gives (0, 0). -/
theorem claim_C6_witness :
    calculate_monthly_change_rate
        [⟨1, 2024, 10, 0, []⟩, ⟨12, 2023, 4, 0, []⟩] "quarter" =
      (((List.range (min 3
          (([⟨1, 2024, 10, 0, []⟩, ⟨12, 2023, 4, 0, []⟩] :
            List Snapshot).length - 1))).map
          (fun i =>
            (([⟨1, 2024, 10, 0, []⟩, ⟨12, 2023, 4, 0, []⟩] :
              List Snapshot).getD i dummySnapshot).net_worth -
            (([⟨1, 2024, 10, 0, []⟩, ⟨12, 2023, 4, 0, []⟩] :
              List Snapshot).getD (i + 1) dummySnapshot).net_worth)).sum /
        ((min 3 (([⟨1, 2024, 10, 0, []⟩, ⟨12, 2023, 4, 0, []⟩] :
          List Snapshot).length - 1) : Nat) : ℚ),
       min 3 (([⟨1, 2024, 10, 0, []⟩, ⟨12, 2023, 4, 0, []⟩] :
         List Snapshot).length - 1)) ∧
    calculate_monthly_change_rate [⟨1, 2024, 10, 0, []⟩] "quarter" = (0, 0) :=
  ⟨(claim_C6_trend _ "quarter" 3 (by simp)).2 (by norm_num),
   (claim_C6_trend [⟨1, 2024, 10, 0, []⟩] "quarter" 3 (by simp)).1 (by norm_num)⟩

/-- Claim C7, counterexample: with snapshots whose quarter trend rate is
10/3, the first projection stores round(10 + 10/3, 2) = 13.33, which is
not equal to latest.net_worth + rate × 1 = 40/3 exactly, refuting the
claimed exact equality. -/
theorem claim_C7_counterexample :
    (generate_net_worth_forecast
        [⟨1, 2024, 10, 0, []⟩, ⟨12, 2023, 0, 0, []⟩,
         ⟨11, 2023, 0, 0, []⟩, ⟨10, 2023, 0, 0, []⟩] "quarter" 12).projections[0]? =
      some ⟨2, 2024, 1333 / 100⟩ ∧
    (calculate_monthly_change_rate
        [⟨1, 2024, 10, 0, []⟩, ⟨12, 2023, 0, 0, []⟩,
         ⟨11, 2023, 0, 0, []⟩, ⟨10, 2023, 0, 0, []⟩] "quarter").1 = 10 / 3 ∧
    (10 : ℚ) + (10 / 3) * (0 + 1) ≠ 1333 / 100 := by
  have hrate : (calculate_monthly_change_rate
      [⟨1, 2024, 10, 0, []⟩, ⟨12, 2023, 0, 0, []⟩,
       ⟨11, 2023, 0, 0, []⟩, ⟨10, 2023, 0, 0, []⟩] "quarter").1 = 10 / 3 := by
    norm_num [calculate_monthly_change_rate, periodMonths, pairDeltas]
  refine ⟨?_, hrate, by norm_num⟩
  rw [forecast_projections_get
    [⟨1, 2024, 10, 0, []⟩, ⟨12, 2023, 0, 0, []⟩,
     ⟨11, 2023, 0, 0, []⟩, ⟨10, 2023, 0, 0, []⟩]
    ⟨1, 2024, 10, 0, []⟩ "quarter" 12 0 rfl
    (by norm_num) (by norm_num) (by norm_num), hrate]
  simp only [round2, roundHalfEven, ForecastPoint.mk.injEq, Option.some.injEq]
  norm_num

/-- Claim C7 (amended): for a non-empty snapshot history each projection i
equals round(latest.net_worth + rate × (i+1), 2) — the exact linear value
rounded to two decimals — and its month/year is the latest snapshot's
month/year advanced by i+1 months with carry into the year past 12. -/
theorem claim_C7_amended (snapshots : List Snapshot) (latest : Snapshot)
    (period : String) (months_ahead i : Nat)
    (hl : snapshots.head? = some latest)
    (hm1 : 1 ≤ latest.month) (hm2 : latest.month ≤ 12)
    (hi : i < months_ahead) :
    (generate_net_worth_forecast snapshots period months_ahead).projections[i]? =
      some { month := (latest.month - 1 + (i + 1)) % 12 + 1
             year := latest.year + (((latest.month - 1 + (i + 1)) / 12 : Nat) : Int)
             projected_net_worth :=
               round2 (latest.net_worth +
                 (calculate_monthly_change_rate snapshots period).1 *
                   ((i : ℚ) + 1)) } :=
  forecast_projections_get snapshots latest period months_ahead i hl hm1 hm2 hi

/-- Claim C7 witness: the amended claim at the counterexample history,
i = 0: the stored projection is (2, 2024, round2(10 + (10/3) × 1)). -/
theorem claim_C7_witness :
    (generate_net_worth_forecast
        [⟨1, 2024, 10, 0, []⟩, ⟨12, 2023, 0, 0, []⟩,
         ⟨11, 2023, 0, 0, []⟩, ⟨10, 2023, 0, 0, []⟩] "quarter" 12).projections[0]? =
      some { month := (1 - 1 + (0 + 1)) % 12 + 1
             year := 2024 + (((1 - 1 + (0 + 1)) / 12 : Nat) : Int)
             projected_net_worth :=
               round2 (10 +
                 (calculate_monthly_change_rate
                   [⟨1, 2024, 10, 0, []⟩, ⟨12, 2023, 0, 0, []⟩,
                    ⟨11, 2023, 0, 0, []⟩, ⟨10, 2023, 0, 0, []⟩] "quarter").1 *
                   ((0 : ℚ) + 1)) } :=
  claim_C7_amended _ ⟨1, 2024, 10, 0, []⟩ "quarter" 12 0 rfl
    (by norm_num) (by norm_num) (by norm_num)

/-- Claim C8: when the stored total_assets is positive, every asset group
with entries appears in the percentages mapping with value
round(group_total / total_assets × 100, 2); when total_assets is not
positive the percentages mapping is empty, so the division never runs
with a zero divisor and no zero-valued keys are emitted. -/
theorem claim_C8_percentages (s : Snapshot) :
    (¬ 0 < s.total_assets → snapshotPercentages s = []) ∧
    (0 < s.total_assets → ∀ gid : Nat,
      s.entries.filter (fun e => e.category.group.group_type = "asset" ∧
        e.category.group.id = gid) ≠ [] →
      ∃ name, (name ++ "_pct",
        round2 (sumAmounts (s.entries.filter
          (fun e => e.category.group.group_type = "asset" ∧
            e.category.group.id = gid)) / s.total_assets * 100)) ∈
        snapshotPercentages s) := by
  constructor
  · intro h
    simp only [snapshotPercentages]
    have hta : ¬ (0 : ℚ) <
        (if s.total_assets = 0 then 0 else s.total_assets) := by
      split_ifs with h0
      · norm_num
      · exact h
    rw [if_neg hta]
  · intro h gid hne
    have hany : s.entries.any
        (fun e => e.category.group.group_type = "asset" ∧
          e.category.group.id = gid) = true := by
      rw [List.any_eq_true]
      obtain ⟨e, he⟩ := List.exists_mem_of_ne_nil _ hne
      rw [List.mem_filter] at he
      exact ⟨e, he.1, he.2⟩
    have hsome : (lookupGroup (groupTotals s.entries) gid).isSome = true := by
      rw [groupTotals, groupTotals_foldl_isSome]
      simp only [lookupGroup, List.find?, Option.isSome_none, Bool.false_or]
      exact hany
    obtain ⟨⟨n, t⟩, hnt⟩ := Option.isSome_iff_exists.mp hsome
    have ht : t = sumAmounts (s.entries.filter
        (fun e => e.category.group.group_type = "asset" ∧
          e.category.group.id = gid)) := by
      have hfold := groupTotals_foldl_total s.entries [] gid
      rw [← groupTotals] at hfold
      rw [hnt] at hfold
      simpa [lookupGroup, List.find?] using hfold
    have hmem : (gid, n, t) ∈ groupTotals s.entries := lookupGroup_mem hnt
    refine ⟨n, ?_⟩
    simp only [snapshotPercentages]
    have h0 : ¬ s.total_assets = 0 := by
      intro h0
      rw [h0] at h
      exact absurd h (by norm_num)
    rw [if_neg h0, if_pos h, ← ht]
    exact List.mem_map_of_mem _ hmem

/-- Claim C8 witness: a snapshot with total_assets 60000 and one Cash
asset entry of 60000 gets a Cash percentage entry; a snapshot with
total_assets 0 has an empty percentages mapping. -/
theorem claim_C8_witness :
    (∃ name, (name ++ "_pct",
        round2 (sumAmounts
          ((([⟨1, ⟨1, "Cash", true, ⟨1, "Cash", "asset"⟩⟩, some 60000⟩] :
              List NetWorthEntry)).filter
            (fun e => e.category.group.group_type = "asset" ∧
              e.category.group.id = 1)) / (60000 : ℚ) * 100)) ∈
        snapshotPercentages
          ⟨1, 2024, 60000, 60000,
            [⟨1, ⟨1, "Cash", true, ⟨1, "Cash", "asset"⟩⟩, some 60000⟩]⟩) ∧
    snapshotPercentages ⟨1, 2024, 0, 0, []⟩ = [] :=
  ⟨(claim_C8_percentages
      ⟨1, 2024, 60000, 60000,
        [⟨1, ⟨1, "Cash", true, ⟨1, "Cash", "asset"⟩⟩, some 60000⟩]⟩).2
      (by norm_num) 1 (by decide),
   (claim_C8_percentages ⟨1, 2024, 0, 0, []⟩).1 (by norm_num)⟩

/-- Claim C9: for a category_rate goal (category id and tracking period
set), the current value is 0 whenever net income <= 0, and with positive
net income and at least 2 snapshots it is the average category delta over
min(tracking months, length − 1) pairs divided by net income, times 100. -/
theorem claim_C9_rate (g : Goal) (snapshots : List Snapshot)
    (net_income : ℚ) (cid : Nat) (tp : String)
    (hgt : g.goal_type = "category_rate")
    (hcid : g.category_id = some cid) (hc0 : cid ≠ 0)
    (htp : g.tracking_period = some tp) (htp0 : tp ≠ "") :
    (net_income ≤ 0 →
      (calcGoalProgress g snapshots net_income).current_value = 0) ∧
    (0 < net_income → 2 ≤ snapshots.length →
      (calcGoalProgress g snapshots net_income).current_value =
        ((List.range (min (trackingPeriodMonths tp)
            (snapshots.length - 1))).map
          (fun i =>
            getCategoryAmountInSnapshot (snapshots.getD i dummySnapshot) cid -
            getCategoryAmountInSnapshot
              (snapshots.getD (i + 1) dummySnapshot) cid)).sum /
          ((min (trackingPeriodMonths tp) (snapshots.length - 1) : Nat) : ℚ) /
          net_income * 100) := by
  have hnenat : natTruthy g.category_id = true := by
    rw [hcid]
    simpa [natTruthy] using hc0
  have hnestr : strTruthy g.tracking_period = true := by
    rw [htp]
    simpa [strTruthy] using htp0
  constructor
  · intro hni
    simp only [calcGoalProgress, calcCurrentValue, hgt]
    rw [if_neg (show ¬ ("category_rate" = "category_target") from by decide),
      if_neg (show ¬ ("category_rate" = "category_monthly") from by decide),
      if_neg (show ¬ (natTruthy g.category_id = true ∧
        strTruthy g.tracking_period = true ∧ 0 < net_income) from by
          rintro ⟨-, -, hpos⟩
          linarith)]
    simp
  · intro hni hlen
    simp only [calcGoalProgress, calcCurrentValue, hgt]
    rw [if_neg (show ¬ ("category_rate" = "net_worth_target") from by decide),
      if_neg (show ¬ ("category_rate" = "category_target") from by decide),
      if_neg (show ¬ ("category_rate" = "category_monthly") from by decide),
      if_pos (show natTruthy g.category_id = true ∧
        strTruthy g.tracking_period = true ∧ 0 < net_income from
          ⟨hnenat, hnestr, hni⟩),
      if_pos hlen]
    rw [hcid, htp]
    simp only [Option.getD_some]
    simp only [pairDeltas_eq_range]
    rw [if_pos trivial]
    have hlen2 : ((List.range (min (trackingPeriodMonths tp)
        (snapshots.length - 1))).map
        (fun i =>
          getCategoryAmountInSnapshot (snapshots.getD i dummySnapshot) cid -
          getCategoryAmountInSnapshot
            (snapshots.getD (i + 1) dummySnapshot) cid)).length =
        min (trackingPeriodMonths tp) (snapshots.length - 1) := by
      simp
    rw [hlen2]
    rw [if_pos (show 0 < min (trackingPeriodMonths tp)
        (snapshots.length - 1) from by
      have := one_le_trackingPeriodMonths tp
      omega)]

/-- Claim C9 witness: Cash grows by 1500 over one pair with net income
3750 over the month window: current value (1500/1)/3750 × 100 = 40; with
net income 0 the current value is 0. -/
theorem claim_C9_witness :
    (calcGoalProgress
        ⟨"category_rate", 30, some 1,
          some ⟨1, "Cash", true, ⟨1, "Cash", "asset"⟩⟩, some "month", none⟩
        [⟨1, 2024, 60000, 60000,
           [⟨1, ⟨1, "Cash", true, ⟨1, "Cash", "asset"⟩⟩, some 60000⟩]⟩,
         ⟨12, 2023, 58500, 58500,
           [⟨1, ⟨1, "Cash", true, ⟨1, "Cash", "asset"⟩⟩, some 58500⟩]⟩]
        3750).current_value =
      ((List.range (min (trackingPeriodMonths "month")
          (([⟨1, 2024, 60000, 60000,
               [⟨1, ⟨1, "Cash", true, ⟨1, "Cash", "asset"⟩⟩, some 60000⟩]⟩,
             ⟨12, 2023, 58500, 58500,
               [⟨1, ⟨1, "Cash", true, ⟨1, "Cash", "asset"⟩⟩, some 58500⟩]⟩] :
            List Snapshot).length - 1))).map
        (fun i =>
          getCategoryAmountInSnapshot
            (([⟨1, 2024, 60000, 60000,
                 [⟨1, ⟨1, "Cash", true, ⟨1, "Cash", "asset"⟩⟩, some 60000⟩]⟩,
               ⟨12, 2023, 58500, 58500,
                 [⟨1, ⟨1, "Cash", true, ⟨1, "Cash", "asset"⟩⟩, some 58500⟩]⟩] :
              List Snapshot).getD i dummySnapshot) 1 -
          getCategoryAmountInSnapshot
            (([⟨1, 2024, 60000, 60000,
                 [⟨1, ⟨1, "Cash", true, ⟨1, "Cash", "asset"⟩⟩, some 60000⟩]⟩,
               ⟨12, 2023, 58500, 58500,
                 [⟨1, ⟨1, "Cash", true, ⟨1, "Cash", "asset"⟩⟩, some 58500⟩]⟩] :
              List Snapshot).getD (i + 1) dummySnapshot) 1)).sum /
        ((min (trackingPeriodMonths "month")
          (([⟨1, 2024, 60000, 60000,
               [⟨1, ⟨1, "Cash", true, ⟨1, "Cash", "asset"⟩⟩, some 60000⟩]⟩,
             ⟨12, 2023, 58500, 58500,
               [⟨1, ⟨1, "Cash", true, ⟨1, "Cash", "asset"⟩⟩, some 58500⟩]⟩] :
            List Snapshot).length - 1) : Nat) : ℚ) / 3750 * 100 ∧
    (calcGoalProgress
        ⟨"category_rate", 30, some 1,
          some ⟨1, "Cash", true, ⟨1, "Cash", "asset"⟩⟩, some "month", none⟩
        [] 0).current_value = 0 :=
  ⟨(claim_C9_rate _ _ 3750 1 "month" rfl rfl (by norm_num) rfl
      (by decide)).2 (by norm_num) (by norm_num),
   (claim_C9_rate _ [] 0 1 "month" rfl rfl (by norm_num) rfl
      (by decide)).1 (by norm_num)⟩

/-- Claim C10: when a category_target goal is created on a liability
category, the captured starting value is the stored signed amount of the
latest snapshot's first entry for that category; with no snapshot or no
matching entry nothing is captured. -/
theorem claim_C10_capture (categories : List NetWorthCategory) (cid : Nat)
    (snap : Snapshot) (cat : NetWorthCategory) (entry : NetWorthEntry)
    (a : ℚ) (hc0 : cid ≠ 0)
    (hfind : categories.find? (fun c => c.id = cid) = some cat)
    (hliab : cat.group.group_type = "liability") :
    (snap.entries.find? (fun e => e.category_id = cid) = some entry →
      entry.amount = some a →
      captureStartingValue "category_target" (some cid) categories
        (some snap) = some a) ∧
    captureStartingValue "category_target" (some cid) categories none =
      none ∧
    (snap.entries.find? (fun e => e.category_id = cid) = none →
      captureStartingValue "category_target" (some cid) categories
        (some snap) = none) := by
  have hcb : natTruthy (some cid) = true := by
    simpa [natTruthy] using hc0
  refine ⟨?_, ?_, ?_⟩
  · intro hentry hamt
    simp only [captureStartingValue, hcb, Bool.and_true, decide_eq_true_eq,
      Option.getD_some, hfind, hliab, hentry, if_pos rfl]
    simpa using hamt
  · simp only [captureStartingValue, hcb, Bool.and_true, decide_eq_true_eq,
      Option.getD_some, hfind, hliab, if_pos rfl]
    simp
  · intro hnone
    simp only [captureStartingValue, hcb, Bool.and_true, decide_eq_true_eq,
      Option.getD_some, hfind, hliab, hnone, if_pos rfl]
    simp

/-- Claim C10 witness: with a liability Loan category and a latest entry
of −5000, the captured starting value is the signed −5000 (not 5000);
with no snapshot it is none. -/
theorem claim_C10_witness :
    captureStartingValue "category_target" (some 2)
        [⟨2, "Loan", true, ⟨2, "Loans", "liability"⟩⟩]
        (some ⟨1, 2024, 0, 0,
          [⟨2, ⟨2, "Loan", true, ⟨2, "Loans", "liability"⟩⟩,
            some (-5000)⟩]⟩) = some (-5000) ∧
    (some (-5000 : ℚ)) ≠ (some (5000 : ℚ)) ∧
    captureStartingValue "category_target" (some 2)
        [⟨2, "Loan", true, ⟨2, "Loans", "liability"⟩⟩] none = none :=
  ⟨(claim_C10_capture
      [⟨2, "Loan", true, ⟨2, "Loans", "liability"⟩⟩] 2
      ⟨1, 2024, 0, 0,
        [⟨2, ⟨2, "Loan", true, ⟨2, "Loans", "liability"⟩⟩, some (-5000)⟩]⟩
      ⟨2, "Loan", true, ⟨2, "Loans", "liability"⟩⟩
      ⟨2, ⟨2, "Loan", true, ⟨2, "Loans", "liability"⟩⟩, some (-5000)⟩
      (-5000) (by norm_num) rfl rfl).1 rfl rfl,
   by norm_num,
   (claim_C10_capture
      [⟨2, "Loan", true, ⟨2, "Loans", "liability"⟩⟩] 2
      ⟨1, 2024, 0, 0,
        [⟨2, ⟨2, "Loan", true, ⟨2, "Loans", "liability"⟩⟩, some (-5000)⟩]⟩
      ⟨2, "Loan", true, ⟨2, "Loans", "liability"⟩⟩
      ⟨2, ⟨2, "Loan", true, ⟨2, "Loans", "liability"⟩⟩, some (-5000)⟩
      (-5000) (by norm_num) rfl rfl).2.1⟩

end Vipu
